import Mathlib

/-!
# Verification of `waterapputils_viewer.py`

A shallow embedding of the viewer module of the `waterapputils` repository.
The module prints summaries of WATER output data and renders plots for
single collections, comparisons of two collections, and monthly delta data.

Python dictionaries holding WATER data are embedded as Lean structures; the
floating-point summary statistics `mean`/`max`/`min` are embedded by the
decimal strings Python's `str()` produces for them, because the printer only
ever interpolates them into text.  Time-series samples are embedded as
rationals, and dates as integers (ordinal timestamps).  Rendering functions,
whose Python originals draw figures through matplotlib as a side effect, are
embedded as pure functions returning descriptions of the figures they draw;
writing and showing figures is outside the embedded fragment.
-/

namespace WaterViewer

/-- Embedding of Python's prefix test used to realise the `in` operator:
`headMatches n h` is true when the character list `n` is a prefix of `h`. -/
def headMatches : List Char → List Char → Bool
  | [], _ => true
  | _ :: _, [] => false
  | a :: as, b :: bs => a = b && headMatches as bs

/-- Helper for the substring test: scans every suffix of the haystack. -/
def scanMatches (needle : List Char) : List Char → Bool
  | [] => headMatches needle []
  | b :: bs => headMatches needle (b :: bs) || scanMatches needle bs

/-- Embedding of Python's `needle in hay` substring containment on strings. -/
def pyIn (needle hay : String) : Bool :=
  scanMatches needle.data hay.data

/-- Embedding of Python's `sep.join(xs)` for strings. -/
def pyJoin (sep : String) : List String → String
  | [] => ""
  | [x] => x
  | x :: y :: rest => x ++ sep ++ pyJoin sep (y :: rest)

/-- Embedding of Python's `s.split("(")[0]`: everything before the first
`(` character of `s`, or all of `s` when it has no `(`. -/
def splitFirst (s : String) : String :=
  ⟨s.data.takeWhile (fun c => c ≠ '(')⟩

/-- Embedding of Python's `set(a) == set(b)`: the two lists hold the same
elements, ignoring order and duplicates. -/
def pySetEq {α : Type} [DecidableEq α] (a b : List α) : Bool :=
  decide ((∀ x ∈ a, x ∈ b) ∧ (∀ x ∈ b, x ∈ a))

/-- Parameter record of a WATER text data dictionary.  `mean`, `max` and
`min` are the `str()` renderings of the precomputed statistics, since the
code only interpolates them into printed text. -/
structure WatertxtParam where
  name : String
  index : Nat
  data : List Rat
  mean : String
  max : String
  min : String
  deriving DecidableEq

/-- WATER text data dictionary.  `keys` records the dictionary's top-level
key set (dynamic in Python; the comparison renderer compares the key sets of
its two arguments). -/
structure WatertxtData where
  keys : List String
  user : String
  date_created : String
  stationid : String
  column_names : List String
  dates : List Int
  parameters : List WatertxtParam
  deriving DecidableEq

/-- Top-level keys of a well-formed WATER text data dictionary. -/
def watertxtKeys : List String :=
  ["user", "date_created", "stationid", "column_names", "parameters", "dates"]

/-- Lines printed by the parameter loop of `print_watertxt_data` for one
parameter record: the name line then the mean, max and min lines. -/
def printParamLoop : List WatertxtParam → List String
  | [] => []
  | p :: rest =>
      ("  " ++ p.name) ::
      ("      mean: " ++ p.mean) ::
      ("      max: " ++ p.max) ::
      ("      min: " ++ p.min) :: printParamLoop rest

/-- Embedding of `print_watertxt_data`: the sequence of lines the function
prints to standard output, one list entry per `print` call. -/
def print_watertxt_data (d : WatertxtData) : List String :=
  ["",
   "--- DATA FILE INFORMATION ---",
   "User: " ++ d.user,
   "Date created: " ++ d.date_created,
   "StationID: " ++ d.stationid,
   "Parameters:"]
  ++ printParamLoop d.parameters
  ++ [""]

/-- Concatenation of printed lines into the byte stream that reaches
standard output: every `print` call appends a newline. -/
def emit (lines : List String) : String :=
  String.join (lines.map (fun s => s ++ "\n"))

/-- Header lines of the printed summary, as the specification describes
them: blank line, banner, user, creation date, station id, `Parameters:`. -/
def specHeader (d : WatertxtData) : List String :=
  ["",
   "--- DATA FILE INFORMATION ---",
   "User: " ++ d.user,
   "Date created: " ++ d.date_created,
   "StationID: " ++ d.stationid,
   "Parameters:"]

/-- Parameter block of the printed summary, as the specification describes
it: the name line then the mean, max and min lines. -/
def specParamBlock (p : WatertxtParam) : List String :=
  ["  " ++ p.name,
   "      mean: " ++ p.mean,
   "      max: " ++ p.max,
   "      min: " ++ p.min]

/-- The concrete `"Discharge (cfs)"` parameter of the specification's
printer scenario: data `[0, 5, 10]`, `mean=5.0`, `max=10`, `min=0`
(rendered by `str()` as `"5.0"`, `"10"` and `"0"`). -/
def dischargeParam : WatertxtParam :=
  { name := "Discharge (cfs)", index := 0, data := [0, 5, 10],
    mean := "5.0", max := "10", min := "0" }

theorem printParamLoop_eq_join (l : List WatertxtParam) :
    printParamLoop l = (l.map specParamBlock).flatten := by
  induction l with
  | nil => rfl
  | cons p rest ih =>
      simp [printParamLoop, specParamBlock, ih]

/-- Claim C1: `print_watertxt_data` prints the header (user, creation date,
station id) followed by exactly one parameter block per entry of
`parameters`, in order, each block being the name line then the mean, max
and min lines with the record's fields verbatim; with empty `parameters`
only the header, the `Parameters:` line and the closing blank line are
printed; and the block printed for the `"Discharge (cfs)"` scenario is
exactly `"  Discharge (cfs)\n      mean: 5.0\n      max: 10\n      min: 0\n"`. -/
theorem print_watertxt_data_spec (d : WatertxtData) :
    print_watertxt_data d
      = specHeader d ++ (d.parameters.map specParamBlock).flatten ++ [""]
    ∧ (d.parameters = [] → print_watertxt_data d = specHeader d ++ [""])
    ∧ emit (specParamBlock dischargeParam)
        = "  Discharge (cfs)\n      mean: 5.0\n      max: 10\n      min: 0\n" := by
  refine ⟨?_, ?_, ?_⟩
  · simp [print_watertxt_data, specHeader, printParamLoop_eq_join]
  · intro h
    simp [print_watertxt_data, specHeader, h, printParamLoop]
  · rfl

/-- The empty-`parameters` collection used to witness the printer claim. -/
def emptyParamsData : WatertxtData :=
  { keys := watertxtKeys, user := "jlant", date_created := "4/9/2014 15:30:00 PM",
    stationid := "012345", column_names := [], dates := [], parameters := [] }

/-- Witness for C1 at a concrete collection with empty `parameters`. -/
theorem print_watertxt_data_spec_witness :
    print_watertxt_data emptyParamsData = specHeader emptyParamsData ++ [""] :=
  (print_watertxt_data_spec emptyParamsData).2.1 rfl

/-- Embedding of the `if/elif` keyword chain of `plot_watertxt_data` that
chooses the plot color from the parameter name. -/
def color_str (name : String) : String :=
  if pyIn "Discharge" name then "b"
  else if pyIn "Subsurface Flow" name then "g"
  else if pyIn "Impervious Flow" name then "SteelBlue"
  else if pyIn "Infiltration Excess" name then "SeaGreen"
  else if pyIn "Initial Abstracted Flow" name then "MediumBlue"
  else if pyIn "Overland Flow" name then "RoyalBlue"
  else if pyIn "PET" name then "orange"
  else if pyIn "AET" name then "DarkOrange"
  else if pyIn "Average Soil Root zone" name then "Gray"
  else if pyIn "Average Soil Unsaturated Zone" name then "DarkGray"
  else if pyIn "Snow Pack" name then "PowderBlue"
  else if pyIn "Precipitation" name then "SkyBlue"
  else if pyIn "Storage Deficit" name then "k"
  else if pyIn "Return Flow" name then "Aqua"
  else "k"

/-- The fixed keyword-to-color policy table, in the order the code checks
the keywords. -/
def colorTable : List (String × String) :=
  [("Discharge", "b"),
   ("Subsurface Flow", "g"),
   ("Impervious Flow", "SteelBlue"),
   ("Infiltration Excess", "SeaGreen"),
   ("Initial Abstracted Flow", "MediumBlue"),
   ("Overland Flow", "RoyalBlue"),
   ("PET", "orange"),
   ("AET", "DarkOrange"),
   ("Average Soil Root zone", "Gray"),
   ("Average Soil Unsaturated Zone", "DarkGray"),
   ("Snow Pack", "PowderBlue"),
   ("Precipitation", "SkyBlue"),
   ("Storage Deficit", "k"),
   ("Return Flow", "Aqua")]

/-- Specification-side color policy: walk the table in order and take the
color of the first keyword occurring as a substring of the name; a name
matching no keyword gets black (`"k"`). -/
def firstMatchColor : List (String × String) → String → String
  | [], _ => "k"
  | kv :: rest, name => if pyIn kv.1 name then kv.2 else firstMatchColor rest name

theorem firstMatchColor_no_match (name : String) :
    ∀ table : List (String × String),
      (∀ kv ∈ table, pyIn kv.1 name = false) → firstMatchColor table name = "k" := by
  intro table
  induction table with
  | nil => intro _; rfl
  | cons kv rest ih =>
      intro h
      have hkv : pyIn kv.1 name = false := h kv (List.mem_cons_self kv rest)
      simp only [firstMatchColor, hkv, Bool.false_eq_true, if_false]
      exact ih (fun x hx => h x (List.mem_cons_of_mem kv hx))


/-- Claim C2 counterexample: the name `"Discharge PET AET"` contains both
`"PET"` and `"AET"` as substrings, yet the chosen color is `"b"` (blue, the
Discharge color), not orange, because `"Discharge"` is checked before
`"PET"` in the keyword table. -/
theorem color_str_pet_aet_counterexample :
    pyIn "PET" "Discharge PET AET" = true
    ∧ pyIn "AET" "Discharge PET AET" = true
    ∧ color_str "Discharge PET AET" = "b"
    ∧ "b" ≠ "orange" := by
  refine ⟨by decide, by decide, by decide, by decide⟩

/-- Claim C2, amended: the chosen color is exactly the color of the first
keyword of the fixed table (in the listed order) occurring as a substring
of the name, black when none occurs; and a name containing both `"PET"`
and `"AET"` as substrings, but none of the keywords checked before
`"PET"`, resolves to the PET color orange. -/
theorem color_str_spec :
    (∀ name, color_str name = firstMatchColor colorTable name)
    ∧ (∀ name, (∀ kv ∈ colorTable, pyIn kv.1 name = false) → color_str name = "k")
    ∧ (∀ name, pyIn "Discharge" name = false → pyIn "Subsurface Flow" name = false →
        pyIn "Impervious Flow" name = false → pyIn "Infiltration Excess" name = false →
        pyIn "Initial Abstracted Flow" name = false → pyIn "Overland Flow" name = false →
        pyIn "PET" name = true → pyIn "AET" name = true →
        color_str name = "orange") := by
  have href : ∀ name, color_str name = firstMatchColor colorTable name := by
    intro name
    rfl
  refine ⟨href, ?_, ?_⟩
  · intro name h
    rw [href name]
    exact firstMatchColor_no_match name colorTable h
  · intro name h1 h2 h3 h4 h5 h6 h7 h8
    simp [color_str, h1, h2, h3, h4, h5, h6, h7]

/-- Witness for C2 at the concrete name `"PET AET (mm/day)"`, which
contains both `"PET"` and `"AET"` but none of the earlier keywords. -/
theorem color_str_spec_witness :
    color_str "PET AET (mm/day)" = "orange" :=
  color_str_spec.2.2 "PET AET (mm/day)" (by decide) (by decide) (by decide)
    (by decide) (by decide) (by decide) (by decide) (by decide)

/-- Description of one figure drawn by `plot_watertxt_data`: title pieces,
selected color, plotted series, and the file name written when a save path
is supplied. -/
structure SingleFigure where
  name : String
  color : String
  dates : List Int
  data : List Rat
  savedFilename : Option String
  deriving DecidableEq

/-- Embedding of the file-name derivation of `plot_watertxt_data`:
`"-".join([user, stationid, name.split("(")[0]]) + ".png"`. -/
def plotFilename (d : WatertxtData) (p : WatertxtParam) : String :=
  pyJoin "-" [d.user, d.stationid, splitFirst p.name] ++ ".png"

/-- Embedding of `plot_watertxt_data`: one figure per parameter, plotting
`dates` against the parameter data in the keyword-selected color; when a
save path is given the figure is saved under the derived file name. -/
def plot_watertxt_data (d : WatertxtData) (save_path : Option String) : List SingleFigure :=
  d.parameters.map fun p =>
    { name := p.name,
      color := color_str p.name,
      dates := d.dates,
      data := p.data,
      savedFilename := save_path.map fun _ => plotFilename d p }

/-- Claim C5: the saved file name is the user, the station id and the parameter
name truncated at the first `(` (everything from the first `(` onward
removed), joined with `-` and suffixed `.png`; and it contains no `/` as
long as the user, the station id and the part of the name before the first
`(` are `/`-free — in particular slashes inside the unit suffix never reach
the file name. -/
theorem plotFilename_spec (d : WatertxtData) (p : WatertxtParam) :
    plotFilename d p = d.user ++ "-" ++ d.stationid ++ "-" ++ splitFirst p.name ++ ".png"
    ∧ p.name.data = (splitFirst p.name).data ++ p.name.data.dropWhile (fun c => c ≠ '(')
    ∧ (∀ s : String,
        (plot_watertxt_data d (some s)).map SingleFigure.savedFilename
          = d.parameters.map fun q => some (plotFilename d q))
    ∧ ('/' ∉ d.user.data → '/' ∉ d.stationid.data → '/' ∉ (splitFirst p.name).data →
        '/' ∉ (plotFilename d p).data) := by
  refine ⟨?_, (List.takeWhile_append_dropWhile _ _).symm, ?_, ?_⟩
  · apply String.ext
    simp [plotFilename, pyJoin, String.data_append]
  · intro s
    simp [plot_watertxt_data]
  · intro hu hs hn hmem
    have hdata : (plotFilename d p).data
        = (d.user.data ++ ('-' :: d.stationid.data)) ++ ('-' :: (splitFirst p.name).data)
          ++ ".png".data := by
      simp [plotFilename, pyJoin, String.data_append]
    rw [hdata] at hmem
    simp at hmem
    rcases hmem with h | h | h
    · exact hu h
    · exact hs h
    · exact hn h

/-- Witness for C5 at a parameter whose unit contains a slash:
`"Discharge (cfs/day)"` yields the file name `"jlant-012345-Discharge .png"`
with no `/` in it. -/
theorem plotFilename_spec_witness :
    '/' ∉ (plotFilename emptyParamsData
        { name := "Discharge (cfs/day)", index := 0, data := [],
          mean := "0", max := "0", min := "0" }).data :=
  (plotFilename_spec emptyParamsData
    { name := "Discharge (cfs/day)", index := 0, data := [],
      mean := "0", max := "0", min := "0" }).2.2.2
    (by decide) (by decide) (by decide)


/-- Description of one two-panel comparison figure drawn by
`plot_watertxt_comparison`: the first collection's series in blue, the
second's in red, and the pointwise difference `parameter2 - parameter1`
plotted in the lower panel. -/
structure CompFigure where
  name : String
  station1 : String
  station2 : String
  dates : List Int
  series1 : List Rat
  color1 : String
  series2 : List Rat
  color2 : String
  diff : List Rat
  deriving DecidableEq

/-- Figure built for one positional parameter pair in
`plot_watertxt_comparison`; the difference series is
`parameter2.data - parameter1.data`, pointwise. -/
def mkCompFigure (d1 d2 : WatertxtData) (p1 p2 : WatertxtParam) : CompFigure :=
  { name := p1.name,
    station1 := d1.stationid,
    station2 := d2.stationid,
    dates := d1.dates,
    series1 := p1.data,
    color1 := "b",
    series2 := p2.data,
    color2 := "r",
    diff := List.zipWith (fun a b => a - b) p2.data p1.data }

/-- Embedding of `plot_watertxt_comparison`: assert equal key sets, then
assert equal date sets, then render one figure per positional pair of
parameters (Python's `zip` stops at the shorter sequence).  A failed
assertion is an error carrying the assertion's message. -/
def plot_watertxt_comparison (d1 d2 : WatertxtData) : Except String (List CompFigure) :=
  if pySetEq d1.keys d2.keys then
    if pySetEq d1.dates d2.dates then
      Except.ok ((d1.parameters.zip d2.parameters).map fun pq => mkCompFigure d1 d2 pq.1 pq.2)
    else Except.error "Dates are not equal"
  else Except.error "Parameter keys between water datasets do not match"

theorem pySetEq_iff {α : Type} [DecidableEq α] (a b : List α) :
    pySetEq a b = true ↔ ∀ x, x ∈ a ↔ x ∈ b := by
  simp only [pySetEq, decide_eq_true_eq]
  constructor
  · rintro ⟨h1, h2⟩ x
    exact ⟨h1 x, h2 x⟩
  · intro h
    exact ⟨fun x hx => (h x).1 hx, fun x hx => (h x).2 hx⟩

theorem pySetEq_comm {α : Type} [DecidableEq α] (a b : List α) :
    pySetEq a b = pySetEq b a :=
  decide_eq_decide.mpr And.comm

theorem map_neg_zipWith_sub (a b : List Rat) :
    (List.zipWith (fun x y => x - y) a b).map (fun x => -x)
      = List.zipWith (fun x y => x - y) b a := by
  induction a generalizing b with
  | nil => cases b <;> rfl
  | cons x xs ih =>
      cases b with
      | nil => rfl
      | cons y ys => simp [List.zipWith, ih, neg_sub]

theorem plot_comparison_keys_fail (d1 d2 : WatertxtData)
    (h : pySetEq d1.keys d2.keys = false) :
    plot_watertxt_comparison d1 d2
      = Except.error "Parameter keys between water datasets do not match" := by
  simp [plot_watertxt_comparison, h]

theorem plot_comparison_dates_fail (d1 d2 : WatertxtData)
    (hk : pySetEq d1.keys d2.keys = true) (hd : pySetEq d1.dates d2.dates = false) :
    plot_watertxt_comparison d1 d2 = Except.error "Dates are not equal" := by
  simp [plot_watertxt_comparison, hk, hd]

theorem plot_comparison_ok (d1 d2 : WatertxtData)
    (hk : pySetEq d1.keys d2.keys = true) (hd : pySetEq d1.dates d2.dates = true) :
    plot_watertxt_comparison d1 d2
      = Except.ok ((d1.parameters.zip d2.parameters).map fun pq =>
          mkCompFigure d1 d2 pq.1 pq.2) := by
  simp [plot_watertxt_comparison, hk, hd]

/-- Claim C3: the comparison renderer fails with the message naming the violated
check when the key sets differ (first check) or, key sets agreeing, when
the date sets differ (second check); when both agree it proceeds to render
the positional parameter pairs; and the set comparison used ignores order
and duplicates of `dates`. -/
theorem plot_watertxt_comparison_precondition_spec (d1 d2 : WatertxtData) :
    (pySetEq d1.keys d2.keys = false →
        plot_watertxt_comparison d1 d2
          = Except.error "Parameter keys between water datasets do not match")
    ∧ (pySetEq d1.keys d2.keys = true → pySetEq d1.dates d2.dates = false →
        plot_watertxt_comparison d1 d2 = Except.error "Dates are not equal")
    ∧ (pySetEq d1.keys d2.keys = true → pySetEq d1.dates d2.dates = true →
        plot_watertxt_comparison d1 d2
          = Except.ok ((d1.parameters.zip d2.parameters).map fun pq =>
              mkCompFigure d1 d2 pq.1 pq.2))
    ∧ (∀ a b : List Int, pySetEq a b = true ↔ ∀ x, x ∈ a ↔ x ∈ b) :=
  ⟨plot_comparison_keys_fail d1 d2, plot_comparison_dates_fail d1 d2,
   plot_comparison_ok d1 d2, fun a b => pySetEq_iff a b⟩

/-- A copy of the empty collection whose dictionary carries a different
top-level key set. -/
def mismatchedKeysData : WatertxtData :=
  { emptyParamsData with keys := ["user"] }

/-- Witness for C3 at a concrete pair of collections with different key
sets: the first check fails with its message. -/
theorem plot_watertxt_comparison_precondition_spec_witness :
    plot_watertxt_comparison emptyParamsData mismatchedKeysData
      = Except.error "Parameter keys between water datasets do not match" :=
  (plot_watertxt_comparison_precondition_spec emptyParamsData mismatchedKeysData).1
    (by decide)


/-- Claim C4: parameters are paired strictly by position, each figure's lower
panel is the pointwise difference `parameter2.data - parameter1.data`, and
swapping the two collections still succeeds and negates every difference
series pointwise. -/
theorem plot_watertxt_comparison_swap_spec (d1 d2 : WatertxtData) (figs : List CompFigure)
    (h : plot_watertxt_comparison d1 d2 = Except.ok figs) :
    (∀ i p1 p2, d1.parameters.get? i = some p1 → d2.parameters.get? i = some p2 →
        figs.get? i = some (mkCompFigure d1 d2 p1 p2)
        ∧ (mkCompFigure d1 d2 p1 p2).diff
            = List.zipWith (fun a b => a - b) p2.data p1.data)
    ∧ ∃ figs', plot_watertxt_comparison d2 d1 = Except.ok figs'
        ∧ figs'.length = figs.length
        ∧ ∀ i f f', figs.get? i = some f → figs'.get? i = some f' →
            f'.diff = f.diff.map (fun x => -x) := by
  have hk : pySetEq d1.keys d2.keys = true := by
    by_contra hk
    rw [Bool.not_eq_true] at hk
    rw [plot_comparison_keys_fail d1 d2 hk] at h
    exact Except.noConfusion h
  have hd : pySetEq d1.dates d2.dates = true := by
    by_contra hd
    rw [Bool.not_eq_true] at hd
    rw [plot_comparison_dates_fail d1 d2 hk hd] at h
    exact Except.noConfusion h
  have hfigs : figs = (d1.parameters.zip d2.parameters).map fun pq =>
      mkCompFigure d1 d2 pq.1 pq.2 := by
    rw [plot_comparison_ok d1 d2 hk hd] at h
    exact (Except.ok.injEq _ _ ▸ h).symm
  have hk' : pySetEq d2.keys d1.keys = true := (pySetEq_comm d2.keys d1.keys).trans hk
  have hd' : pySetEq d2.dates d1.dates = true := (pySetEq_comm d2.dates d1.dates).trans hd
  have hswap : plot_watertxt_comparison d2 d1
      = Except.ok ((d2.parameters.zip d1.parameters).map fun pq =>
          mkCompFigure d2 d1 pq.1 pq.2) :=
    plot_comparison_ok d2 d1 hk' hd'
  constructor
  · intro i p1 p2 h1 h2
    subst hfigs
    constructor
    · rw [List.get?_map]
      rw [(List.get?_zip_eq_some _ _ (p1, p2) i).2 ⟨h1, h2⟩]
      rfl
    · rfl
  · refine ⟨_, hswap, ?_, ?_⟩
    · subst hfigs
      simp [List.length_zip, Nat.min_comm]
    · intro i f f' hf hf'
      subst hfigs
      rw [List.get?_map] at hf
      rw [List.get?_map] at hf'
      cases hzip : (d1.parameters.zip d2.parameters).get? i with
      | none => rw [hzip] at hf; exact Option.noConfusion hf
      | some pq =>
          cases hzip' : (d2.parameters.zip d1.parameters).get? i with
          | none => rw [hzip'] at hf'; exact Option.noConfusion hf'
          | some qp =>
              rw [hzip] at hf
              rw [hzip'] at hf'
              obtain ⟨hq1, hq2⟩ := (List.get?_zip_eq_some _ _ pq i).1 hzip
              obtain ⟨hq1', hq2'⟩ := (List.get?_zip_eq_some _ _ qp i).1 hzip'
              have e1 : qp.1 = pq.2 := by
                have := hq1'.symm.trans hq2
                exact Option.some.injEq _ _ ▸ this
              have e2 : qp.2 = pq.1 := by
                have := hq2'.symm.trans hq1
                exact Option.some.injEq _ _ ▸ this
              have hfv : f = mkCompFigure d1 d2 pq.1 pq.2 :=
                (Option.some.injEq _ _ ▸ hf).symm
              have hfv' : f' = mkCompFigure d2 d1 qp.1 qp.2 :=
                (Option.some.injEq _ _ ▸ hf').symm
              rw [hfv, hfv', e1, e2]
              show List.zipWith (fun a b => a - b) pq.1.data pq.2.data
                  = (List.zipWith (fun a b => a - b) pq.2.data pq.1.data).map (fun x => -x)
              rw [map_neg_zipWith_sub]


/-- Discharge parameter of the first concrete comparison collection. -/
def paramA : WatertxtParam :=
  { name := "Discharge (cfs)", index := 0, data := [0, 5, 10],
    mean := "5.0", max := "10", min := "0" }

/-- Discharge parameter of the second concrete comparison collection. -/
def paramB : WatertxtParam :=
  { name := "Discharge (cfs)", index := 0, data := [0, 10, 20],
    mean := "10.0", max := "20", min := "0" }

/-- Second parameter of the second concrete comparison collection; it has
no positional partner in the first collection. -/
def paramB2 : WatertxtParam :=
  { name := "Subsurface Flow (mm/day)", index := 1, data := [100, 110, 90],
    mean := "100.0", max := "110", min := "90" }

/-- First concrete comparison collection: one parameter. -/
def cmpDataA : WatertxtData :=
  { keys := watertxtKeys, user := "jlant", date_created := "4/9/2014 15:30:00 PM",
    stationid := "012345", column_names := ["Discharge (cfs)"],
    dates := [0, 1, 2], parameters := [paramA] }

/-- Second concrete comparison collection: two parameters, same key set and
date set as the first. -/
def cmpDataB : WatertxtData :=
  { keys := watertxtKeys, user := "jlant", date_created := "4/9/2014 15:30:00 PM",
    stationid := "00000", column_names := ["Discharge (cfs)"],
    dates := [2, 1, 0], parameters := [paramB, paramB2] }

/-- The figures the comparison renderer draws for the two concrete
collections: a single figure pairing the first parameters. -/
def figsAB : List CompFigure :=
  [mkCompFigure cmpDataA cmpDataB paramA paramB]

/-- Witness for C4 at the two concrete collections: the one figure pairs
the positionally matched parameters and its difference series is the
pointwise difference of the second collection's data minus the first's. -/
theorem plot_watertxt_comparison_swap_spec_witness :
    figsAB.get? 0 = some (mkCompFigure cmpDataA cmpDataB paramA paramB)
    ∧ (mkCompFigure cmpDataA cmpDataB paramA paramB).diff
        = List.zipWith (fun a b => a - b) paramB.data paramA.data :=
  (plot_watertxt_comparison_swap_spec cmpDataA cmpDataB figsAB rfl).1 0 paramA paramB
    rfl rfl

/-- Claim C9: whenever both precondition checks pass, the comparison renderer
succeeds and produces exactly `min` of the two parameter counts figures;
positions at or beyond that minimum yield no figure (the trailing
parameters of the longer collection are ignored). -/
theorem plot_watertxt_comparison_length_spec (d1 d2 : WatertxtData)
    (hk : pySetEq d1.keys d2.keys = true) (hd : pySetEq d1.dates d2.dates = true) :
    ∃ figs, plot_watertxt_comparison d1 d2 = Except.ok figs
      ∧ figs.length = min d1.parameters.length d2.parameters.length
      ∧ ∀ i, min d1.parameters.length d2.parameters.length ≤ i → figs.get? i = none := by
  refine ⟨_, plot_comparison_ok d1 d2 hk hd, ?_, ?_⟩
  · simp [List.length_zip]
  · intro i hi
    apply List.get?_eq_none.2
    simpa [List.length_zip] using hi

/-- Witness for C9 at the two concrete collections with one and two
parameters respectively: exactly one figure is produced. -/
theorem plot_watertxt_comparison_length_spec_witness :
    ∃ figs, plot_watertxt_comparison cmpDataA cmpDataB = Except.ok figs
      ∧ figs.length = min cmpDataA.parameters.length cmpDataB.parameters.length
      ∧ ∀ i, min cmpDataA.parameters.length cmpDataB.parameters.length ≤ i →
          figs.get? i = none :=
  plot_watertxt_comparison_length_spec cmpDataA cmpDataB (by decide) (by decide)


/-- Delta data dictionary: model metadata, the tile identifiers, and one
value sequence per calendar month, aligned by position with `Tile`. -/
structure DeltasData where
  Model : String
  Scenario : String
  Target : String
  Variable : String
  Tile : List String
  January : List Rat
  February : List Rat
  March : List Rat
  April : List Rat
  May : List Rat
  June : List Rat
  July : List Rat
  August : List Rat
  September : List Rat
  October : List Rat
  November : List Rat
  December : List Rat
  deriving DecidableEq

/-- The fixed eight-color palette of the delta renderer. -/
def colors_list : List String :=
  ["b", "g", "r", "k", "y", "c", "m", "orange"]

/-- Color painted on one delta line: a palette entry, or one RGB triple
drawn from the random source (`np.random.rand(3,)` in the code; only the
fact that a fresh triple is drawn is modelled, not its distribution). -/
inductive TileColor where
  | palette (s : String)
  | rgb (v : List Rat)
  deriving DecidableEq

/-- Embedding of the color choice of `plot_deltas_data`: when the loop
position exceeds the last palette index the color is a freshly drawn
random RGB triple, otherwise the palette entry at the position. -/
def tileColor (rng : Nat → List Rat) (i : Nat) : TileColor :=
  if i > colors_list.length - 1 then TileColor.rgb (rng i)
  else TileColor.palette (colors_list.getD i "")

/-- The twelve month value sequences in the calendar order of the
renderer's `month_list`. -/
def monthLists (d : DeltasData) : List (List Rat) :=
  [d.January, d.February, d.March, d.April, d.May, d.June,
   d.July, d.August, d.September, d.October, d.November, d.December]

/-- One line drawn by the delta renderer: the tile label, the twelve
plotted values (one per month, in calendar order), and the color. -/
structure DeltaLine where
  tile : String
  data : List Rat
  color : TileColor
  deriving DecidableEq

/-- Line drawn at loop position `i` for tile value `tile`: the data is
looked up at `Tile.index(tile)` — the first index of the tile value in
`Tile` — while the color follows the loop position. -/
def mkDeltaLine (rng : Nat → List Rat) (d : DeltasData) (i : Nat) (tile : String) :
    DeltaLine :=
  { tile := tile,
    data := (monthLists d).map fun mv => mv.getD (d.Tile.indexOf tile) 0,
    color := tileColor rng i }

/-- The renderer's loop over the tiles, carrying `colors_index`. -/
def deltaLoop (rng : Nat → List Rat) (d : DeltasData) : List String → Nat → List DeltaLine
  | [], _ => []
  | tile :: rest, i => mkDeltaLine rng d i tile :: deltaLoop rng d rest (i + 1)

/-- Embedding of `plot_deltas_data`: one line per entry of `Tile`, starting
with `colors_index = 0`.  `rng` stands for the stream of random RGB
triples, indexed by loop position. -/
def plot_deltas_data (rng : Nat → List Rat) (d : DeltasData) : List DeltaLine :=
  deltaLoop rng d d.Tile 0

theorem deltaLoop_length (rng : Nat → List Rat) (d : DeltasData) (l : List String)
    (k : Nat) : (deltaLoop rng d l k).length = l.length := by
  induction l generalizing k with
  | nil => rfl
  | cons t rest ih => simp [deltaLoop, ih]

theorem deltaLoop_get? (rng : Nat → List Rat) (d : DeltasData) (l : List String)
    (k i : Nat) :
    (deltaLoop rng d l k).get? i = (l.get? i).map fun t => mkDeltaLine rng d (k + i) t := by
  induction l generalizing k i with
  | nil => simp [deltaLoop]
  | cons t rest ih =>
      cases i with
      | zero => simp [deltaLoop]
      | succ n =>
          simp only [deltaLoop, List.get?_cons_succ, ih]
          have hkn : k + 1 + n = k + (n + 1) := by omega
          rw [hkn]

theorem indexOf_get?_nodup (l : List String) (i : Nat) (t : String)
    (hnd : l.Nodup) (h : l.get? i = some t) : l.indexOf t = i := by
  induction l generalizing i with
  | nil => simp at h
  | cons a rest ih =>
      cases i with
      | zero =>
          have ha : a = t := by simpa using h
          subst ha
          exact List.indexOf_cons_self a rest
      | succ n =>
          have h' : rest.get? n = some t := by simpa using h
          have hmem : t ∈ rest := List.get?_mem h'
          have hne : a ≠ t := by
            rintro rfl
            exact (List.nodup_cons.1 hnd).1 hmem
          rw [List.indexOf_cons_ne rest hne, ih n (List.nodup_cons.1 hnd).2 h']

theorem indexOf_le_of_get? (l : List String) (i : Nat) (t : String)
    (h : l.get? i = some t) : l.indexOf t ≤ i := by
  induction l generalizing i with
  | nil => simp at h
  | cons a rest ih =>
      cases i with
      | zero =>
          have ha : a = t := by simpa using h
          subst ha
          simp [List.indexOf_cons_self]
      | succ n =>
          by_cases hat : a = t
          · subst hat
            simp [List.indexOf_cons_self]
          · rw [List.indexOf_cons_ne rest hat]
            have h' : rest.get? n = some t := by simpa using h
            exact Nat.succ_le_succ (ih n h')

theorem get?_indexOf_of_get? (l : List String) (i : Nat) (t : String)
    (h : l.get? i = some t) : l.get? (l.indexOf t) = some t := by
  induction l generalizing i with
  | nil => simp at h
  | cons a rest ih =>
      by_cases hat : a = t
      · subst hat
        simp [List.indexOf_cons_self]
      · rw [List.indexOf_cons_ne rest hat]
        cases i with
        | zero =>
            have : a = t := by simpa using h
            exact absurd this hat
        | succ n =>
            have h' : rest.get? n = some t := by simpa using h
            simpa using ih n h'

theorem get?_lt_indexOf_ne (l : List String) (t : String) (k : Nat)
    (hk : k < l.indexOf t) : ∀ t', l.get? k = some t' → t' ≠ t := by
  induction l generalizing k with
  | nil => intro t' h; simp at h
  | cons a rest ih =>
      by_cases hat : a = t
      · subst hat
        rw [List.indexOf_cons_self] at hk
        omega
      · rw [List.indexOf_cons_ne rest hat] at hk
        cases k with
        | zero =>
            intro t' h
            have : a = t' := by simpa using h
            subst this
            exact hat
        | succ n =>
            intro t' h
            have h' : rest.get? n = some t' := by simpa using h
            exact ih n (by omega) t' h'


/-- Claim C6: the line drawn at position `i` is painted with the `i`-th entry of
the fixed palette `["b","g","r","k","y","c","m","orange"]` for `i < 8`,
and for `i ≥ 8` with the random source's RGB triple for position `i` —
never a palette entry, so there is no wraparound into the palette. -/
theorem plot_deltas_colors_spec (rng : Nat → List Rat) (d : DeltasData) (i : Nat)
    (line : DeltaLine) (h : (plot_deltas_data rng d).get? i = some line) :
    colors_list = ["b", "g", "r", "k", "y", "c", "m", "orange"]
    ∧ (i < 8 → line.color = TileColor.palette (colors_list.getD i ""))
    ∧ (8 ≤ i → line.color = TileColor.rgb (rng i)
        ∧ ∀ s, line.color ≠ TileColor.palette s) := by
  rw [show plot_deltas_data rng d = deltaLoop rng d d.Tile 0 from rfl,
    deltaLoop_get?] at h
  cases ht : d.Tile.get? i with
  | none => rw [ht] at h; exact Option.noConfusion h
  | some t =>
      rw [ht] at h
      have hline : line = mkDeltaLine rng d (0 + i) t := by
        have := Option.some.injEq (mkDeltaLine rng d (0 + i) t) line ▸ h
        exact this.symm
      refine ⟨rfl, ?_, ?_⟩
      · intro hi
        have hcond : ¬ (i > colors_list.length - 1) := by
          simp only [colors_list, List.length_cons, List.length_nil]
          omega
        rw [hline]
        simp [mkDeltaLine, tileColor, hcond]
      · intro hi
        have hcond : i > colors_list.length - 1 := by
          simp only [colors_list, List.length_cons, List.length_nil]
          omega
        rw [hline]
        refine ⟨by simp [mkDeltaLine, tileColor, hcond], ?_⟩
        intro s
        simp [mkDeltaLine, tileColor, hcond]

/-- Concrete delta collection with nine tiles, exercising the random-color
fallback beyond the eighth tile. -/
def nineTileDeltas : DeltasData :=
  { Model := "CanESM2", Scenario := "rcp45", Target := "2030", Variable := "PET",
    Tile := ["t0", "t1", "t2", "t3", "t4", "t5", "t6", "t7", "t8"],
    January := [1, 2, 3, 4, 5, 6, 7, 8, 9],
    February := [1, 2, 3, 4, 5, 6, 7, 8, 9],
    March := [1, 2, 3, 4, 5, 6, 7, 8, 9],
    April := [1, 2, 3, 4, 5, 6, 7, 8, 9],
    May := [1, 2, 3, 4, 5, 6, 7, 8, 9],
    June := [1, 2, 3, 4, 5, 6, 7, 8, 9],
    July := [1, 2, 3, 4, 5, 6, 7, 8, 9],
    August := [1, 2, 3, 4, 5, 6, 7, 8, 9],
    September := [1, 2, 3, 4, 5, 6, 7, 8, 9],
    October := [1, 2, 3, 4, 5, 6, 7, 8, 9],
    November := [1, 2, 3, 4, 5, 6, 7, 8, 9],
    December := [1, 2, 3, 4, 5, 6, 7, 8, 9] }

/-- A concrete random source for witnesses. -/
def rngZero : Nat → List Rat := fun _ => [0, 0, 0]

/-- Witness for C6 at the nine-tile collection: position 0 gets the first
palette color and position 8 gets the random triple, not a palette
entry. -/
theorem plot_deltas_colors_spec_witness :
    ((mkDeltaLine rngZero nineTileDeltas 0 "t0").color
        = TileColor.palette (colors_list.getD 0 ""))
    ∧ (mkDeltaLine rngZero nineTileDeltas 8 "t8").color = TileColor.rgb (rngZero 8)
    ∧ ∀ s, (mkDeltaLine rngZero nineTileDeltas 8 "t8").color ≠ TileColor.palette s :=
  ⟨(plot_deltas_colors_spec rngZero nineTileDeltas 0
      (mkDeltaLine rngZero nineTileDeltas 0 "t0") rfl).2.1 (by omega),
   (plot_deltas_colors_spec rngZero nineTileDeltas 8
      (mkDeltaLine rngZero nineTileDeltas 8 "t8") rfl).2.2 (by omega)⟩

/-- Claim C7: with unique tile identifiers the delta renderer draws exactly one
line per tile, and the line at position `i` carries that tile's label and
the twelve values taken at position `i` of each month sequence, in
calendar order. -/
theorem plot_deltas_lines_spec (rng : Nat → List Rat) (d : DeltasData)
    (hnd : d.Tile.Nodup) :
    (plot_deltas_data rng d).length = d.Tile.length
    ∧ ∀ i t line, d.Tile.get? i = some t →
        (plot_deltas_data rng d).get? i = some line →
        line.tile = t ∧ line.data = (monthLists d).map fun mv => mv.getD i 0 := by
  constructor
  · exact deltaLoop_length rng d d.Tile 0
  · intro i t line ht h
    rw [show plot_deltas_data rng d = deltaLoop rng d d.Tile 0 from rfl,
      deltaLoop_get?, ht] at h
    have hline : line = mkDeltaLine rng d (0 + i) t := by
      have := Option.some.injEq (mkDeltaLine rng d (0 + i) t) line ▸ h
      exact this.symm
    have hidx : d.Tile.indexOf t = i := indexOf_get?_nodup d.Tile i t hnd ht
    rw [hline]
    exact ⟨rfl, by simp [mkDeltaLine, hidx]⟩

/-- The delta test fixture `_create_deltas_test_data` of the source file. -/
def deltasTestData : DeltasData :=
  { Model := "CanESM2", Scenario := "rcp45", Target := "2030", Variable := "PET",
    Tile := ["11", "12", "21", "22", "31", "32"],
    January := [1.3, 1.2, 1.3, 1.4, 1.5, 1.6],
    February := [2.7, 2.8, 2.9, 2.3, 2.2, 2.3],
    March := [3.3, 3.2, 3.3, 3.4, 3.5, 3.6],
    April := [4.7, 4.8, 4.9, 4.3, 4.2, 4.3],
    May := [5.3, 5.2, 5.3, 5.4, 5.5, 5.6],
    June := [6.7, 6.8, 6.9, 6.3, 6.2, 6.3],
    July := [7.3, 7.2, 7.3, 7.4, 7.5, 7.6],
    August := [8.7, 8.8, 8.9, 8.3, 8.2, 8.3],
    September := [9.3, 9.2, 9.3, 9.4, 9.5, 9.6],
    October := [10.7, 10.8, 10.9, 10.3, 10.2, 10.3],
    November := [11.3, 11.2, 11.3, 11.4, 11.5, 11.6],
    December := [12.7, 12.8, 12.9, 12.3, 12.2, 12.3] }

/-- Witness for C7 at the source's delta test fixture: six lines are
drawn and the line at position 2 carries tile `"21"` and the values at
position 2 of each month sequence. -/
theorem plot_deltas_lines_spec_witness :
    (plot_deltas_data rngZero deltasTestData).length = deltasTestData.Tile.length
    ∧ (mkDeltaLine rngZero deltasTestData 2 "21").tile = "21"
    ∧ (mkDeltaLine rngZero deltasTestData 2 "21").data
        = (monthLists deltasTestData).map fun mv => mv.getD 2 0 :=
  ⟨(plot_deltas_lines_spec rngZero deltasTestData (by decide)).1,
   (plot_deltas_lines_spec rngZero deltasTestData (by decide)).2 2 "21"
     (mkDeltaLine rngZero deltasTestData 2 "21") rfl rfl⟩


/-- Claim C10: when the same tile identifier occurs at two positions, both lines
carry the monthly values looked up at the first occurrence of that
identifier (`Tile.index` returns the first index), while each line's color
still follows its own loop position. -/
theorem plot_deltas_duplicate_spec (rng : Nat → List Rat) (d : DeltasData)
    (i j : Nat) (ti tj : String) (li lj : DeltaLine)
    (hti : d.Tile.get? i = some ti) (htj : d.Tile.get? j = some tj)
    (heq : ti = tj)
    (hli : (plot_deltas_data rng d).get? i = some li)
    (hlj : (plot_deltas_data rng d).get? j = some lj) :
    li.data = lj.data
    ∧ lj.data = (monthLists d).map (fun mv => mv.getD (d.Tile.indexOf tj) 0)
    ∧ d.Tile.indexOf tj ≤ i ∧ d.Tile.indexOf tj ≤ j
    ∧ d.Tile.get? (d.Tile.indexOf tj) = some tj
    ∧ (∀ k t', k < d.Tile.indexOf tj → d.Tile.get? k = some t' → t' ≠ tj)
    ∧ li.color = tileColor rng i ∧ lj.color = tileColor rng j := by
  subst heq
  rw [show plot_deltas_data rng d = deltaLoop rng d d.Tile 0 from rfl,
    deltaLoop_get?, hti] at hli
  rw [show plot_deltas_data rng d = deltaLoop rng d d.Tile 0 from rfl,
    deltaLoop_get?, htj] at hlj
  have hlival : li = mkDeltaLine rng d (0 + i) ti := by
    have := Option.some.injEq (mkDeltaLine rng d (0 + i) ti) li ▸ hli
    exact this.symm
  have hljval : lj = mkDeltaLine rng d (0 + j) ti := by
    have := Option.some.injEq (mkDeltaLine rng d (0 + j) ti) lj ▸ hlj
    exact this.symm
  refine ⟨?_, ?_, ?_, ?_, ?_, ?_, ?_, ?_⟩
  · rw [hlival, hljval]
    rfl
  · rw [hljval]
    rfl
  · exact indexOf_le_of_get? d.Tile i ti hti
  · exact indexOf_le_of_get? d.Tile j ti htj
  · exact get?_indexOf_of_get? d.Tile j ti htj
  · exact fun k t' hk hget => get?_lt_indexOf_ne d.Tile ti k hk t' hget
  · rw [hlival]
    simp [mkDeltaLine]
  · rw [hljval]
    simp [mkDeltaLine]

/-- Concrete delta collection whose `Tile` sequence repeats `"11"` at
positions 0 and 2. -/
def dupTileDeltas : DeltasData :=
  { Model := "CanESM2", Scenario := "rcp45", Target := "2030", Variable := "PET",
    Tile := ["11", "12", "11"],
    January := [1, 2, 3],
    February := [1, 2, 3],
    March := [1, 2, 3],
    April := [1, 2, 3],
    May := [1, 2, 3],
    June := [1, 2, 3],
    July := [1, 2, 3],
    August := [1, 2, 3],
    September := [1, 2, 3],
    October := [1, 2, 3],
    November := [1, 2, 3],
    December := [1, 2, 3] }

/-- Witness for C10 at the duplicated-tile collection: the lines at
positions 0 and 2 share the data of the first occurrence of `"11"`, while
the line at position 2 keeps the color of loop position 2. -/
theorem plot_deltas_duplicate_spec_witness :
    (mkDeltaLine rngZero dupTileDeltas 0 "11").data
      = (mkDeltaLine rngZero dupTileDeltas 2 "11").data
    ∧ (mkDeltaLine rngZero dupTileDeltas 2 "11").data
        = (monthLists dupTileDeltas).map (fun mv => mv.getD (dupTileDeltas.Tile.indexOf "11") 0)
    ∧ dupTileDeltas.Tile.indexOf "11" ≤ 0 ∧ dupTileDeltas.Tile.indexOf "11" ≤ 2
    ∧ dupTileDeltas.Tile.get? (dupTileDeltas.Tile.indexOf "11") = some "11"
    ∧ (∀ k t', k < dupTileDeltas.Tile.indexOf "11" →
        dupTileDeltas.Tile.get? k = some t' → t' ≠ "11")
    ∧ (mkDeltaLine rngZero dupTileDeltas 0 "11").color = tileColor rngZero 0
    ∧ (mkDeltaLine rngZero dupTileDeltas 2 "11").color = tileColor rngZero 2 :=
  plot_deltas_duplicate_spec rngZero dupTileDeltas 0 2 "11" "11"
    (mkDeltaLine rngZero dupTileDeltas 0 "11")
    (mkDeltaLine rngZero dupTileDeltas 2 "11")
    rfl rfl rfl rfl rfl

/-- The part of a delta line unaffected by the random source: the tile
label and the plotted values. -/
def lineShape (l : DeltaLine) : String × List Rat :=
  (l.tile, l.data)

/-- Claim C8: the delta renderer is deterministic in its input except for the
random-color fallback — two runs with different random sources draw the
same tiles with the same data, and agree on the colors of all positions
within the fixed palette.  Every other printing and rendering operation of
the module is embedded as a function of the collection alone and so is
deterministic by construction. -/
theorem plot_deltas_determinism_spec (rng1 rng2 : Nat → List Rat) (d : DeltasData) :
    (plot_deltas_data rng1 d).map lineShape = (plot_deltas_data rng2 d).map lineShape
    ∧ ∀ i l1 l2, (plot_deltas_data rng1 d).get? i = some l1 →
        (plot_deltas_data rng2 d).get? i = some l2 → i < 8 → l1.color = l2.color := by
  constructor
  · apply List.ext_get?_iff.2
    intro n
    rw [List.get?_map, List.get?_map,
      show plot_deltas_data rng1 d = deltaLoop rng1 d d.Tile 0 from rfl,
      show plot_deltas_data rng2 d = deltaLoop rng2 d d.Tile 0 from rfl,
      deltaLoop_get?, deltaLoop_get?]
    cases d.Tile.get? n with
    | none => rfl
    | some t => rfl
  · intro i l1 l2 h1 h2 hi
    rw [show plot_deltas_data rng1 d = deltaLoop rng1 d d.Tile 0 from rfl,
      deltaLoop_get?] at h1
    rw [show plot_deltas_data rng2 d = deltaLoop rng2 d d.Tile 0 from rfl,
      deltaLoop_get?] at h2
    cases ht : d.Tile.get? i with
    | none => rw [ht] at h1; exact Option.noConfusion h1
    | some t =>
        rw [ht] at h1
        rw [ht] at h2
        have hv1 : l1 = mkDeltaLine rng1 d (0 + i) t := by
          have := Option.some.injEq (mkDeltaLine rng1 d (0 + i) t) l1 ▸ h1
          exact this.symm
        have hv2 : l2 = mkDeltaLine rng2 d (0 + i) t := by
          have := Option.some.injEq (mkDeltaLine rng2 d (0 + i) t) l2 ▸ h2
          exact this.symm
        have hcond : ¬ (i > colors_list.length - 1) := by
          simp only [colors_list, List.length_cons, List.length_nil]
          omega
        rw [hv1, hv2]
        simp [mkDeltaLine, tileColor, hcond]

/-- A second concrete random source, disagreeing with `rngZero`
everywhere. -/
def rngOne : Nat → List Rat := fun _ => [1, 1, 1]

/-- Witness for C8 at the source's delta test fixture with two different
random sources. -/
theorem plot_deltas_determinism_spec_witness :
    (plot_deltas_data rngZero deltasTestData).map lineShape
      = (plot_deltas_data rngOne deltasTestData).map lineShape
    ∧ (mkDeltaLine rngZero deltasTestData 0 "11").color
        = (mkDeltaLine rngOne deltasTestData 0 "11").color :=
  ⟨(plot_deltas_determinism_spec rngZero rngOne deltasTestData).1,
   (plot_deltas_determinism_spec rngZero rngOne deltasTestData).2 0
     (mkDeltaLine rngZero deltasTestData 0 "11")
     (mkDeltaLine rngOne deltasTestData 0 "11") rfl rfl (by omega)⟩

end WaterViewer
